import Mathlib

/-!
Shallow embedding of the tiered event cache of `backend/app/cache_manager.py`
(class `CacheManager`) and the background fetch loop of
`backend/app/background_fetcher.py` (class `BackgroundEventFetcher`).

Modelling conventions:
* Timestamps are integers (seconds).  `datetime.now()` becomes an explicit
  `now : Int` argument, `datetime.fromisoformat` on a stored `cached_at`
  string becomes the field `cached_at : Option Int` — `some t` when the
  ISO string parses to instant `t`, `none` when the field is missing,
  empty, or unparseable (the `except` branch of `_is_cache_valid`).
* Python dicts become association lists keyed by the cache-key string;
  the disk tier maps a key to `Option CacheData`, where `none` payload
  stands for a file whose `json.load` raises (a corrupt file).
* The Firebase tier carries a `reachable` flag: an unreachable store makes
  every Firestore call raise, which the Python code catches in the outer
  `except` of the enclosing method.
* `asyncio.create_task` of a Firebase write is modelled by appending the
  pending write to `pendingRemote`; it mutates no tier synchronously.
* Listing-source crawlers are functions `String → String → Except String
  (List Record)`: `Except.error` models `fetch_events_by_city` raising,
  `Except.ok []` models it returning no records.
-/

set_option autoImplicit false

namespace LocalLife

/-- An opaque listing record.  The only field the cache core inspects is the
start time; `start_time = some t` stands for a start-time string that parses
to instant `t`, `none` for a missing or unparseable ("not-a-date") one.
`name` is an arbitrary payload so distinct records can share a start time. -/
structure Record where
  name : String
  start_time : Option Int
deriving DecidableEq, Repr

/-- The cache-entry dict built by `cache_events`:
`{'city', 'event_type', 'events', 'cached_at', 'count'}`. -/
structure CacheData where
  city : String
  event_type : String
  events : List Record
  cached_at : Option Int
  count : Nat
deriving DecidableEq, Repr

/-- The Firebase `event_cache` collection: a set of documents keyed by cache
key, plus a reachability flag (`reachable = false` makes every call raise). -/
structure Firebase where
  reachable : Bool
  docs : List (String × CacheData)
deriving DecidableEq, Repr

/-- The state of a `CacheManager` instance: the TTL configuration, the
in-process `memory_cache` dict, the on-disk JSON files (a `none` payload is a
file whose `json.load` raises), the Firebase collection, and the queue of
fire-and-forget Firebase writes created with `asyncio.create_task`. -/
structure CacheManager where
  ttl_hours : Int
  memory : List (String × CacheData)
  disk : List (String × Option CacheData)
  firebase : Firebase
  pendingRemote : List (String × CacheData)
deriving DecidableEq, Repr

/-- First-match lookup in an association list (dict access `d[k]` / `d.get(k)`). -/
def alookup {α : Type} (k : String) : List (String × α) → Option α
  | [] => none
  | (k', v) :: rest => if k' = k then some v else alookup k rest

/-- Dict deletion `del d[k]` / `os.remove` of the key's file. -/
def aerase {α : Type} (k : String) (l : List (String × α)) : List (String × α) :=
  l.filter (fun p => p.1 ≠ k)

/-- Dict update `d[k] = v` (replaces any previous binding of `k`). -/
def ainsert {α : Type} (k : String) (v : α) (l : List (String × α)) : List (String × α) :=
  (k, v) :: aerase k l

/-- Python `str.lower()` (ASCII case folding, as used on city/category names). -/
def lowerStr (s : String) : String :=
  String.mk (s.data.map Char.toLower)

/-- Python `str.replace(c, r)` for a single-character pattern, the only form
`_get_cache_key` uses. -/
def replaceChar (c r : Char) (s : String) : String :=
  String.mk (s.data.map (fun ch => if ch = c then r else ch))

/-- Embeds `CacheManager._is_cache_valid`: parse `cached_at` and check
`now - cache_time < timedelta(hours=self.ttl_hours)`; any parse failure
(`except`) yields `False`.  TTL is converted to seconds here because model
time is in seconds. -/
def _is_cache_valid (ttl_hours : Int) (now : Int) (cached_at : Option Int) : Bool :=
  match cached_at with
  | none => false
  | some t => now - t < ttl_hours * 3600

/-- The region half of `CacheManager._get_cache_key`:
`city.lower().replace(" ", "_").replace("/", "_")`. -/
def city_key (city : String) : String :=
  replaceChar '/' '_' (replaceChar ' ' '_' (lowerStr city))

/-- The category half of `CacheManager._get_cache_key`:
`event_type.lower().replace(" ", "_")`. -/
def event_key (event_type : String) : String :=
  replaceChar ' ' '_' (lowerStr event_type)

/-- Embeds `CacheManager._get_cache_key`: `f"{city_key}_{event_key}"`. -/
def _get_cache_key (city : String) (event_type : String) : String :=
  city_key city ++ "_" ++ event_key event_type

/-- Embeds `CacheManager.cache_events`: build the cache dict with
`cached_at = datetime.now().isoformat()` and `count = len(events)`, write it
to the memory dict and the disk file synchronously, queue the Firebase write
as a background task, and return `True`. -/
def cache_events (city : String) (events : List Record) (event_type : String)
    (now : Int) (s : CacheManager) : Bool × CacheManager :=
  let cache_data : CacheData :=
    { city := city, event_type := event_type, events := events,
      cached_at := some now, count := events.length }
  let key := _get_cache_key city event_type
  (true,
    { s with
      memory := ainsert key cache_data s.memory,
      disk := ainsert key (some cache_data) s.disk,
      pendingRemote := s.pendingRemote ++ [(key, cache_data)] })

/-- A listing-source crawler: `fetch_events_by_city(city, category, max_pages)`.
`Except.error` models the call raising, `Except.ok l` a returned record list. -/
def Crawler : Type := String → String → Except String (List Record)

/-- Embeds `CacheManager._fetch_and_cache_fresh_events`: call the crawler; on a raised
exception or an empty result return `None`; otherwise `cache_events` the fresh
records and return them. -/
def _fetch_and_cache_fresh_events (city : String) (event_type : String)
    (crawler : Crawler) (now : Int) (s : CacheManager) :
    Option (List Record) × CacheManager :=
  match crawler city event_type with
  | Except.error _ => (none, s)
  | Except.ok fresh_events =>
    if fresh_events.isEmpty then (none, s)
    else
      let (_, s') := cache_events city fresh_events event_type now s
      (some fresh_events, s')

/-- The Firebase stage of `get_cached_events` (lines 98–128): read the key's
document; if the read raises (unreachable store) the outer `except` returns
`None`; on a missing or expired document fall back to the crawler when one was
supplied; on a valid document promote it into memory and disk and return its
events. -/
def getFirebaseStage (city : String) (event_type : String)
    (crawler : Option Crawler) (now : Int) (key : String) (s : CacheManager) :
    Option (List Record) × CacheManager :=
  if s.firebase.reachable then
    match alookup key s.firebase.docs with
    | none =>
      match crawler with
      | some c => _fetch_and_cache_fresh_events city event_type c now s
      | none => (none, s)
    | some cache_data =>
      if _is_cache_valid s.ttl_hours now cache_data.cached_at then
        (some cache_data.events,
          { s with
            memory := ainsert key cache_data s.memory,
            disk := ainsert key (some cache_data) s.disk })
      else
        match crawler with
        | some c => _fetch_and_cache_fresh_events city event_type c now s
        | none => (none, s)
  else (none, s)

/-- The disk stage of `get_cached_events` (lines 78–96): if the key's file
exists, load it — a corrupt file (`json.load` raises) logs a warning and falls
through to Firebase with the file left in place; a valid entry is promoted
into memory and returned; an expired file is removed and the lookup falls
through to Firebase. -/
def getDiskStage (city : String) (event_type : String)
    (crawler : Option Crawler) (now : Int) (key : String) (s : CacheManager) :
    Option (List Record) × CacheManager :=
  match alookup key s.disk with
  | none => getFirebaseStage city event_type crawler now key s
  | some none => getFirebaseStage city event_type crawler now key s
  | some (some cache_data) =>
    if _is_cache_valid s.ttl_hours now cache_data.cached_at then
      (some cache_data.events, { s with memory := ainsert key cache_data s.memory })
    else
      getFirebaseStage city event_type crawler now key
        { s with disk := aerase key s.disk }

/-- Embeds `CacheManager.get_cached_events`: check the memory dict first (a valid hit
is returned as-is, an expired one is deleted and the lookup falls through),
then the disk file, then Firebase, then — when a crawler was supplied — a
fresh synchronous fetch. -/
def get_cached_events (city : String) (event_type : String)
    (crawler : Option Crawler) (now : Int) (s : CacheManager) :
    Option (List Record) × CacheManager :=
  let key := _get_cache_key city event_type
  match alookup key s.memory with
  | some cache_data =>
    if _is_cache_valid s.ttl_hours now cache_data.cached_at then
      (some cache_data.events, s)
    else
      getDiskStage city event_type crawler now key
        { s with memory := aerase key s.memory }
  | none => getDiskStage city event_type crawler now key s

/-- Embeds `CacheManager.cleanup_old_cache`: drop expired entries from the memory
dict, remove expired disk files (a corrupt file's `json.load` raises, is
logged, and the file is kept), then delete expired Firebase documents — if the
Firebase read raises, the outer `except` leaves the local cleanup in place. -/
def cleanup_old_cache (now : Int) (s : CacheManager) : CacheManager :=
  let s1 : CacheManager :=
    { s with memory := s.memory.filter (fun p => _is_cache_valid s.ttl_hours now p.2.cached_at) }
  let s2 : CacheManager :=
    { s1 with disk := s1.disk.filter (fun p =>
        match p.2 with
        | none => true
        | some d => _is_cache_valid s.ttl_hours now d.cached_at) }
  if s2.firebase.reachable then
    { s2 with firebase :=
        { s2.firebase with docs := s2.firebase.docs.filter (fun p =>
            _is_cache_valid s.ttl_hours now p.2.cached_at) } }
  else s2

/-- One tier's `{'total': _, 'valid': _}` block of `get_cache_stats`. -/
structure TierStats where
  total : Nat
  valid : Nat
deriving DecidableEq, Repr

/-- The dict returned by `get_cache_stats` (the tier counts; the fixed
configuration echo fields are omitted). -/
structure CacheStats where
  local_memory : TierStats
  local_disk : TierStats
  firebase : TierStats
deriving DecidableEq, Repr

/-- Embeds `CacheManager.get_cache_stats`: count total and valid entries per tier; a
corrupt disk file counts toward `total` but its `except: pass` skips the
validity check; if the Firebase read raises, the whole call returns the
`{'error': ...}` dict. -/
def get_cache_stats (now : Int) (s : CacheManager) : Except String CacheStats :=
  if s.firebase.reachable then
    Except.ok
      { local_memory :=
          { total := s.memory.length,
            valid := s.memory.countP (fun p => _is_cache_valid s.ttl_hours now p.2.cached_at) },
        local_disk :=
          { total := s.disk.length,
            valid := s.disk.countP (fun p =>
              match p.2 with
              | none => false
              | some d => _is_cache_valid s.ttl_hours now d.cached_at) },
        firebase :=
          { total := s.firebase.docs.length,
            valid := s.firebase.docs.countP (fun p =>
              _is_cache_valid s.ttl_hours now p.2.cached_at) } }
  else Except.error "firebase unreachable"

/-- Modelled from the spec: `CacheManager.filter_past_events` is called at
`background_fetcher.py:60` but is not defined anywhere under the source tree;
spec §4.4 (Past-Item Filter) specifies it: parse each record's start-time
field and drop the record iff a start time was successfully parsed and that
moment is strictly before now; any parse failure or missing field keeps the
record (the filter fails open). -/
def filter_past_events (now : Int) (records : List Record) : List Record :=
  records.filter (fun r =>
    match r.start_time with
    | none => true
    | some t => !(t < now))

/-- The summary dict built by `BackgroundEventFetcher.fetch_all_events`
(the tier counts it reports; `success`, timing and timestamp fields are
omitted as they carry wall-clock data). -/
structure FetchSummary where
  cities_processed : Nat
  event_types_processed : Nat
  total_events_fetched : Nat
  total_events_cached : Nat
  errors : List String
deriving DecidableEq, Repr

/-- The body of the per-(city, event_type) loop of `fetch_all_events`
(lines 48–80): fetch; on a raised exception append an error and continue; on
records, filter past events, cache the remainder when non-empty (appending an
error if `cache_events` returns `False`), and bump the fetched total. -/
def processPair (crawler : Crawler) (now : Int) (city : String)
    (event_type : String) (acc : Nat × Nat × List String × CacheManager) :
    Nat × Nat × List String × CacheManager :=
  let (total_fetched, total_cached, errors, s) := acc
  match crawler city event_type with
  | Except.error e =>
    (total_fetched, total_cached,
      errors ++ ["Error fetching " ++ event_type ++ " events for " ++ city ++ ": " ++ e], s)
  | Except.ok events =>
    if events.isEmpty then (total_fetched, total_cached, errors, s)
    else
      let future_events := filter_past_events now events
      if future_events.isEmpty then
        (total_fetched + events.length, total_cached, errors, s)
      else
        let (success, s') := cache_events city future_events event_type now s
        if success then
          (total_fetched + events.length, total_cached + future_events.length, errors, s')
        else
          (total_fetched + events.length, total_cached,
            errors ++ ["Failed to cache events for " ++ city ++ "/" ++ event_type], s')

/-- Embeds `BackgroundEventFetcher.fetch_all_events`: iterate supported cities ×
supported event types, process each pair with its own `try/except`, and
report the summary. -/
def fetch_all_events (cities : List String) (event_types : List String)
    (crawler : Crawler) (now : Int) (s : CacheManager) :
    FetchSummary × CacheManager :=
  let r := cities.foldl
    (fun acc city =>
      event_types.foldl (fun acc' event_type => processPair crawler now city event_type acc') acc)
    (0, 0, ([] : List String), s)
  ({ cities_processed := cities.length,
     event_types_processed := event_types.length,
     total_events_fetched := r.1,
     total_events_cached := r.2.1,
     errors := r.2.2.1 }, r.2.2.2)

/-! ## Helper lemmas on association lists -/

theorem alookup_ainsert_self {α : Type} (k : String) (v : α) (l : List (String × α)) :
    alookup k (ainsert k v l) = some v := by
  simp [alookup, ainsert]

theorem alookup_aerase_ne {α : Type} {k k' : String} (l : List (String × α))
    (h : k' ≠ k) : alookup k' (aerase k l) = alookup k' l := by
  induction l with
  | nil => rfl
  | cons p rest ih =>
    by_cases hp : p.1 = k
    · have hpk : ¬ p.1 = k' := by rw [hp]; exact fun he => h he.symm
      simpa [aerase, List.filter_cons, hp, alookup, hpk, Ne.symm h] using ih
    · by_cases hpk : p.1 = k'
      · simp [aerase, List.filter_cons, hp, alookup, hpk, h]
      · simpa [aerase, List.filter_cons, hp, alookup, hpk, h] using ih

theorem alookup_ainsert_ne {α : Type} {k k' : String} (v : α) (l : List (String × α))
    (h : k' ≠ k) : alookup k' (ainsert k v l) = alookup k' l := by
  have hk : ¬ k = k' := fun hk => h hk.symm
  simp only [ainsert, alookup, if_neg hk]
  exact alookup_aerase_ne l h

/-! ## Theorems about the embedded program -/

/-- C7: for every entry with a parseable `cached_at` timestamp, `_is_cache_valid`
returns true iff `now - cached_at < TTL`, and the result flips exactly at the
TTL boundary: an entry whose age equals the TTL exactly is not valid, while one
second younger it still is. -/
theorem is_cache_valid_iff_age_lt_ttl (ttl now t : Int) :
    (_is_cache_valid ttl now (some t) = true ↔ now - t < ttl * 3600) ∧
    _is_cache_valid ttl (t + ttl * 3600) (some t) = false ∧
    _is_cache_valid ttl (t + ttl * 3600 - 1) (some t) = true := by
  refine ⟨?_, ?_, ?_⟩
  · simp [_is_cache_valid]
  · simp only [_is_cache_valid, decide_eq_false_iff_not]
    omega
  · simp only [_is_cache_valid, decide_eq_true_eq]
    omega

/-- C8 counterexample: the cache keys of the pairs `("a", "b c")` and
`("a b", "c")` are equal even though their normalized regions (and normalized
categories) differ, because region and category are joined with the same
character that normalization substitutes for spaces. -/
theorem cache_key_collision_distinct_pairs :
    _get_cache_key "a" "b c" = _get_cache_key "a b" "c" ∧
    city_key "a" ≠ city_key "a b" ∧
    event_key "b c" ≠ event_key "c" := by decide

/-- C8 amended: if two pairs have equal normalized regions and equal normalized
categories then their cache keys are equal (the converse fails, see the
collision counterexample). -/
theorem cache_key_eq_of_normalized_eq (c1 e1 c2 e2 : String)
    (hc : city_key c1 = city_key c2) (he : event_key e1 = event_key e2) :
    _get_cache_key c1 e1 = _get_cache_key c2 e2 := by
  simp [_get_cache_key, hc, he]

/-- Witness for `cache_key_eq_of_normalized_eq` at the pairs `("New York",
"Live Music")` and `("new/york", "live music")`. -/
theorem cache_key_eq_of_normalized_eq_witness :
    city_key "New York" = city_key "new/york" ∧
    event_key "Live Music" = event_key "live music" ∧
    _get_cache_key "New York" "Live Music" = _get_cache_key "new/york" "live music" :=
  ⟨by decide, by decide,
    cache_key_eq_of_normalized_eq "New York" "Live Music" "new/york" "live music"
      (by decide) (by decide)⟩

/-- C2: the past-item filter keeps a record iff its start time is missing or
unparseable, or parses to a moment not strictly before now; in particular on
start times {yesterday, now, tomorrow, "not-a-date"} it returns exactly
{now, tomorrow, "not-a-date"}. -/
theorem filter_past_events_spec (now : Int) (records : List Record) :
    (∀ r : Record, r ∈ filter_past_events now records ↔
      r ∈ records ∧ ∀ t : Int, r.start_time = some t → ¬ t < now) ∧
    filter_past_events 0
      [⟨"yesterday", some (-86400)⟩, ⟨"now", some 0⟩,
       ⟨"tomorrow", some 86400⟩, ⟨"not-a-date", none⟩] =
      [⟨"now", some 0⟩, ⟨"tomorrow", some 86400⟩, ⟨"not-a-date", none⟩] := by
  constructor
  · intro r
    simp only [filter_past_events, List.mem_filter]
    cases h : r.start_time <;> simp [h]
  · decide

/-- C1 counterexample: with a 1-hour TTL, a memory entry cached at time 0 and
looked up at time 3601 (one second past the TTL) is stale; `get_cached_events`
does not return its records — it deletes the entry and returns `none` — and
when a crawler is supplied it blocks on a fresh fetch and returns the fresh
records, not the stale ones; no refresh runs asynchronously. -/
theorem stale_entry_not_served_counterexample :
    (get_cached_events "paris" "music" none 3601
        ⟨1, [("paris_music", ⟨"paris", "music", [⟨"r", some 5⟩], some 0, 1⟩)],
          [], ⟨true, []⟩, []⟩).1 = none ∧
    alookup "paris_music"
      (get_cached_events "paris" "music" none 3601
        ⟨1, [("paris_music", ⟨"paris", "music", [⟨"r", some 5⟩], some 0, 1⟩)],
          [], ⟨true, []⟩, []⟩).2.memory = none ∧
    (get_cached_events "paris" "music"
        (some (fun _ _ => Except.ok [⟨"fresh", some 9000⟩])) 3601
        ⟨1, [("paris_music", ⟨"paris", "music", [⟨"r", some 5⟩], some 0, 1⟩)],
          [], ⟨true, []⟩, []⟩).1 = some [⟨"fresh", some 9000⟩] := by decide

/-- C1 amended: a lookup on a key whose memory entry is stale does not serve
it — the entry is deleted and, when the other tiers miss and a crawler is
supplied, the lookup degenerates to a synchronous, blocking fetch-and-cache;
no asynchronous refresh task exists in this code path. -/
theorem stale_key_synchronous_refetch
    (s : CacheManager) (city event_type : String) (c : Crawler) (now : Int)
    (d : CacheData)
    (hm : alookup (_get_cache_key city event_type) s.memory = some d)
    (hv : _is_cache_valid s.ttl_hours now d.cached_at = false)
    (hd : alookup (_get_cache_key city event_type) s.disk = none)
    (hr : s.firebase.reachable = true)
    (hf : alookup (_get_cache_key city event_type) s.firebase.docs = none) :
    get_cached_events city event_type (some c) now s =
      _fetch_and_cache_fresh_events city event_type c now
        { s with memory := aerase (_get_cache_key city event_type) s.memory } := by
  simp [get_cached_events, hm, hv, getDiskStage, hd, getFirebaseStage, hr, hf]

/-- Witness for `stale_key_synchronous_refetch` at a concrete stale state. -/
theorem stale_key_synchronous_refetch_witness :
    _is_cache_valid 1 3601 (some 0) = false ∧
    get_cached_events "paris" "music"
        (some (fun _ _ => Except.ok [⟨"f", some 9000⟩])) 3601
        ⟨1, [("paris_music", ⟨"paris", "music", [⟨"r", some 5⟩], some 0, 1⟩)],
          [], ⟨true, []⟩, []⟩ =
      _fetch_and_cache_fresh_events "paris" "music"
        (fun _ _ => Except.ok [⟨"f", some 9000⟩]) 3601
        ⟨1, [], [], ⟨true, []⟩, []⟩ :=
  ⟨by decide,
    stale_key_synchronous_refetch
      ⟨1, [("paris_music", ⟨"paris", "music", [⟨"r", some 5⟩], some 0, 1⟩)],
        [], ⟨true, []⟩, []⟩
      "paris" "music" (fun _ _ => Except.ok [⟨"f", some 9000⟩]) 3601
      ⟨"paris", "music", [⟨"r", some 5⟩], some 0, 1⟩
      (by decide) (by decide) (by decide) rfl (by decide)⟩

/-- C3 counterexample: with an unreachable remote store and a crawler that
would return fresh records, a lookup on a cold key returns `none` and leaves
the state unchanged — the crawler is never consulted, so the remote-tier read
failure does not degrade to a miss that falls through to a fresh fetch. -/
theorem remote_failure_aborts_lookup_counterexample :
    (get_cached_events "paris" "music"
        (some (fun _ _ => Except.ok [⟨"fresh", some 100⟩])) 0
        ⟨1, [], [], ⟨false, []⟩, []⟩).1 = none ∧
    (get_cached_events "paris" "music"
        (some (fun _ _ => Except.ok [⟨"fresh", some 100⟩])) 0
        ⟨1, [], [], ⟨false, []⟩, []⟩).2 = ⟨1, [], [], ⟨false, []⟩, []⟩ := by decide

/-- C3 amended: a corrupt disk file is treated as a miss at the disk tier only
and the lookup falls through to the Firebase stage with the file kept in
place; but a remote-store read failure does not fall through — the outer
exception handler ends the lookup with `none` and an unchanged state (the
failure is still never raised to the caller, and no fresh fetch happens even
when a crawler is supplied). -/
theorem tier_read_failure_is_per_tier
    (s : CacheManager) (city event_type : String) (crawler : Option Crawler)
    (now : Int) :
    (alookup (_get_cache_key city event_type) s.memory = none →
      alookup (_get_cache_key city event_type) s.disk = some none →
      get_cached_events city event_type crawler now s =
        getFirebaseStage city event_type crawler now
          (_get_cache_key city event_type) s) ∧
    (alookup (_get_cache_key city event_type) s.memory = none →
      alookup (_get_cache_key city event_type) s.disk = none →
      s.firebase.reachable = false →
      get_cached_events city event_type crawler now s = (none, s)) := by
  constructor
  · intro hm hd
    simp [get_cached_events, hm, getDiskStage, hd]
  · intro hm hd hr
    simp [get_cached_events, hm, getDiskStage, hd, getFirebaseStage, hr]

/-- Witness for `tier_read_failure_is_per_tier`: a corrupt disk file falls
through to the Firebase stage; an unreachable Firebase ends a crawler-armed
lookup with `none`. -/
theorem tier_read_failure_is_per_tier_witness :
    get_cached_events "paris" "music" none 0
        ⟨1, [], [("paris_music", none)], ⟨true, []⟩, []⟩ =
      getFirebaseStage "paris" "music" none 0 "paris_music"
        ⟨1, [], [("paris_music", none)], ⟨true, []⟩, []⟩ ∧
    get_cached_events "paris" "music"
        (some (fun _ _ => Except.ok [⟨"fresh", some 100⟩])) 0
        ⟨1, [], [], ⟨false, []⟩, []⟩ =
      (none, ⟨1, [], [], ⟨false, []⟩, []⟩) :=
  ⟨(tier_read_failure_is_per_tier ⟨1, [], [("paris_music", none)], ⟨true, []⟩, []⟩
      "paris" "music" none 0).1 (by decide) (by decide),
   (tier_read_failure_is_per_tier ⟨1, [], [], ⟨false, []⟩, []⟩
      "paris" "music" (some (fun _ _ => Except.ok [⟨"fresh", some 100⟩])) 0).2
      (by decide) (by decide) rfl⟩

/-- C4: on a key with no entry at any tier, a failing listing source (the
crawler raises, or yields no records) makes the lookup return the failure
result `none` — never an empty record list — and leaves the whole state
unchanged: nothing is written to memory, disk, Firebase, or the pending
remote-write queue. -/
theorem cold_miss_failing_source_propagates
    (s : CacheManager) (city event_type : String) (c : Crawler) (now : Int)
    (hm : alookup (_get_cache_key city event_type) s.memory = none)
    (hd : alookup (_get_cache_key city event_type) s.disk = none)
    (hr : s.firebase.reachable = true)
    (hf : alookup (_get_cache_key city event_type) s.firebase.docs = none)
    (hfail : (∃ e, c city event_type = Except.error e) ∨
      c city event_type = Except.ok []) :
    get_cached_events city event_type (some c) now s = (none, s) := by
  have hbase : get_cached_events city event_type (some c) now s =
      _fetch_and_cache_fresh_events city event_type c now s := by
    simp [get_cached_events, hm, getDiskStage, hd, getFirebaseStage, hr, hf]
  rw [hbase]
  rcases hfail with ⟨e, he⟩ | he <;> simp [_fetch_and_cache_fresh_events, he]

/-- Witness for `cold_miss_failing_source_propagates` with an empty store and
a crawler that raises. -/
theorem cold_miss_failing_source_propagates_witness :
    get_cached_events "paris" "music"
        (some (fun _ _ => Except.error "boom")) 0 ⟨1, [], [], ⟨true, []⟩, []⟩ =
      (none, ⟨1, [], [], ⟨true, []⟩, []⟩) :=
  cold_miss_failing_source_propagates ⟨1, [], [], ⟨true, []⟩, []⟩
    "paris" "music" (fun _ _ => Except.error "boom") 0
    rfl rfl rfl rfl (Or.inl ⟨"boom", rfl⟩)

/-- C6: after `cache_events` succeeds (it returns `True`), `get_cached_events`
on the same city and category returns exactly the stored records, and caching
the same records twice leaves the lookup returning that same data. -/
theorem cache_then_get_round_trip
    (s : CacheManager) (city event_type : String) (records : List Record)
    (now : Int) (httl : 0 < s.ttl_hours) :
    (cache_events city records event_type now s).1 = true ∧
    (get_cached_events city event_type none now
        (cache_events city records event_type now s).2).1 = some records ∧
    (get_cached_events city event_type none now
        (cache_events city records event_type now
          (cache_events city records event_type now s).2).2).1 = some records := by
  have hv : _is_cache_valid s.ttl_hours now (some now) = true := by
    simp only [_is_cache_valid, decide_eq_true_eq]
    omega
  refine ⟨rfl, ?_, ?_⟩ <;>
    simp [get_cached_events, cache_events, alookup_ainsert_self, hv]

/-- Witness for `cache_then_get_round_trip`: one record cached into an empty
store at time 0 with a 1-hour TTL. -/
theorem cache_then_get_round_trip_witness :
    (0 : Int) < 1 ∧
    (get_cached_events "paris" "music" none 0
        (cache_events "paris" [⟨"r", some 5⟩] "music" 0
          ⟨1, [], [], ⟨true, []⟩, []⟩).2).1 = some [⟨"r", some 5⟩] :=
  ⟨by decide,
    (cache_then_get_round_trip ⟨1, [], [], ⟨true, []⟩, []⟩
      "paris" "music" [⟨"r", some 5⟩] 0 (by decide)).2.1⟩

/-- C9 counterexample: a mere read deletes entries: with a 1-hour TTL, a
memory entry and a disk file for "paris_music" cached at time 0 both exist,
yet a `get_cached_events` at time 3601 removes both from their tiers, even
though it is neither the cleanup sweep nor a write under that key. -/
theorem lookup_deletes_expired_entries_counterexample :
    alookup "paris_music"
      (⟨1, [("paris_music", ⟨"paris", "music", [⟨"r", some 5⟩], some 0, 1⟩)],
        [("paris_music", some ⟨"paris", "music", [⟨"r", some 5⟩], some 0, 1⟩)],
        ⟨true, []⟩, []⟩ : CacheManager).memory ≠ none ∧
    alookup "paris_music"
      (get_cached_events "paris" "music" none 3601
        ⟨1, [("paris_music", ⟨"paris", "music", [⟨"r", some 5⟩], some 0, 1⟩)],
          [("paris_music", some ⟨"paris", "music", [⟨"r", some 5⟩], some 0, 1⟩)],
          ⟨true, []⟩, []⟩).2.memory = none ∧
    alookup "paris_music"
      (get_cached_events "paris" "music" none 3601
        ⟨1, [("paris_music", ⟨"paris", "music", [⟨"r", some 5⟩], some 0, 1⟩)],
          [("paris_music", some ⟨"paris", "music", [⟨"r", some 5⟩], some 0, 1⟩)],
          ⟨true, []⟩, []⟩).2.disk = none := by decide

/-- C9 amended: a lookup that hits a valid memory entry returns its records
and leaves the state completely unchanged (so a read never deletes a valid
entry), and the cleanup sweep's memory pass removes exactly the entries that
fail the freshness check; but a lookup that finds an entry expired does delete
it in passing (see the counterexample). -/
theorem valid_entry_survives_lookup
    (s : CacheManager) (city event_type : String) (crawler : Option Crawler)
    (now : Int) (d : CacheData)
    (hm : alookup (_get_cache_key city event_type) s.memory = some d)
    (hv : _is_cache_valid s.ttl_hours now d.cached_at = true) :
    get_cached_events city event_type crawler now s = (some d.events, s) ∧
    (∀ p : String × CacheData,
      p ∈ (cleanup_old_cache now s).memory ↔
        p ∈ s.memory ∧ _is_cache_valid s.ttl_hours now p.2.cached_at = true) := by
  constructor
  · simp [get_cached_events, hm, hv]
  · intro p
    cases hreach : s.firebase.reachable <;>
      simp [cleanup_old_cache, hreach, List.mem_filter]

/-- Witness for `valid_entry_survives_lookup` at a concrete fresh entry. -/
theorem valid_entry_survives_lookup_witness :
    get_cached_events "paris" "music" none 60
        ⟨1, [("paris_music", ⟨"paris", "music", [⟨"r", some 5⟩], some 0, 1⟩)],
          [], ⟨true, []⟩, []⟩ =
      (some [⟨"r", some 5⟩],
        ⟨1, [("paris_music", ⟨"paris", "music", [⟨"r", some 5⟩], some 0, 1⟩)],
          [], ⟨true, []⟩, []⟩) :=
  (valid_entry_survives_lookup
    ⟨1, [("paris_music", ⟨"paris", "music", [⟨"r", some 5⟩], some 0, 1⟩)],
      [], ⟨true, []⟩, []⟩
    "paris" "music" none 60 ⟨"paris", "music", [⟨"r", some 5⟩], some 0, 1⟩
    (by decide) (by decide)).1

/-- C10: an entry whose `cached_at` did not parse (missing, empty, or
malformed ISO text, all modelled as `none`) is uniformly treated as expired:
the validity check rejects it, a lookup deletes it from memory and falls
through to the disk stage instead of returning it, the cleanup sweep leaves no
such entry in memory, and the stats count it in the memory tier's total but
not among its valid entries. -/
theorem unparseable_cached_at_is_expired
    (s : CacheManager) (city event_type : String) (now : Int) (d : CacheData)
    (pre post : List (String × CacheData))
    (hsplit : s.memory = pre ++ (_get_cache_key city event_type, d) :: post)
    (hm : alookup (_get_cache_key city event_type) s.memory = some d)
    (hnone : d.cached_at = none)
    (hr : s.firebase.reachable = true) :
    _is_cache_valid s.ttl_hours now d.cached_at = false ∧
    get_cached_events city event_type none now s =
      getDiskStage city event_type none now (_get_cache_key city event_type)
        { s with memory := aerase (_get_cache_key city event_type) s.memory } ∧
    (∀ p : String × CacheData,
      p ∈ (cleanup_old_cache now s).memory → p.2.cached_at ≠ none) ∧
    Except.map (fun st => (st.local_memory.total, st.local_memory.valid))
        (get_cache_stats now s) =
      Except.ok (pre.length + post.length + 1,
        (pre ++ post).countP
          (fun p => _is_cache_valid s.ttl_hours now p.2.cached_at)) := by
  refine ⟨by simp [hnone, _is_cache_valid], ?_, ?_, ?_⟩
  · simp [get_cached_events, hm, hnone, _is_cache_valid]
  · intro p hp hc
    have hmem : p ∈ s.memory.filter
        (fun q => _is_cache_valid s.ttl_hours now q.2.cached_at) := by
      cases hreach : s.firebase.reachable <;>
        simpa [cleanup_old_cache, hreach] using hp
    have := (List.mem_filter.mp hmem).2
    rw [hc] at this
    simp [_is_cache_valid] at this
  · simp [get_cache_stats, hr, Except.map, hsplit, List.countP_append,
      List.countP_cons, hnone, _is_cache_valid]
    omega

/-- Witness for `unparseable_cached_at_is_expired` at a one-entry store whose
entry has an unparseable `cached_at`. -/
theorem unparseable_cached_at_is_expired_witness :
    _is_cache_valid 1 0 (none : Option Int) = false ∧
    Except.map (fun st => (st.local_memory.total, st.local_memory.valid))
        (get_cache_stats 0
          ⟨1, [("paris_music", ⟨"paris", "music", [⟨"r", some 5⟩], none, 1⟩)],
            [], ⟨true, []⟩, []⟩) =
      Except.ok (([] : List (String × CacheData)).length +
        ([] : List (String × CacheData)).length + 1,
        (([] : List (String × CacheData)) ++ []).countP
          (fun p : String × CacheData => _is_cache_valid 1 0 p.2.cached_at)) := by
  have h := unparseable_cached_at_is_expired
    ⟨1, [("paris_music", ⟨"paris", "music", [⟨"r", some 5⟩], none, 1⟩)],
      [], ⟨true, []⟩, []⟩
    "paris" "music" 0 ⟨"paris", "music", [⟨"r", some 5⟩], none, 1⟩
    [] [] (by decide) (by decide) rfl rfl
  exact ⟨h.1, h.2.2.2⟩

/-- C5: a batch over the pairs (c1,t), (c2,t), (c3,t) in which only the middle
pair's fetch raises still attempts and caches the other two: the summary lists
exactly the middle pair's error message, the fetched and cached totals count
both successful pairs, and both successful pairs' entries are present in the
memory tier afterwards. -/
theorem scheduler_batch_tolerates_middle_failure
    (c1 c2 c3 t : String) (crawler : Crawler) (now : Int) (s : CacheManager)
    (l1 l3 : List Record) (e : String)
    (h1 : crawler c1 t = Except.ok l1) (h1ne : l1 ≠ [])
    (h1f : filter_past_events now l1 = l1)
    (h2 : crawler c2 t = Except.error e)
    (h3 : crawler c3 t = Except.ok l3) (h3ne : l3 ≠ [])
    (h3f : filter_past_events now l3 = l3)
    (hk : _get_cache_key c1 t ≠ _get_cache_key c3 t) :
    (fetch_all_events [c1, c2, c3] [t] crawler now s).1.errors =
      ["Error fetching " ++ t ++ " events for " ++ c2 ++ ": " ++ e] ∧
    (fetch_all_events [c1, c2, c3] [t] crawler now s).1.total_events_fetched =
      l1.length + l3.length ∧
    (fetch_all_events [c1, c2, c3] [t] crawler now s).1.total_events_cached =
      l1.length + l3.length ∧
    alookup (_get_cache_key c1 t)
        (fetch_all_events [c1, c2, c3] [t] crawler now s).2.memory =
      some ⟨c1, t, l1, some now, l1.length⟩ ∧
    alookup (_get_cache_key c3 t)
        (fetch_all_events [c1, c2, c3] [t] crawler now s).2.memory =
      some ⟨c3, t, l3, some now, l3.length⟩ := by
  simp [fetch_all_events, processPair, h1, h2, h3, h1ne, h3ne, h1f, h3f,
    cache_events, alookup_ainsert_self, alookup_ainsert_ne _ _ hk]

/-- Witness for `scheduler_batch_tolerates_middle_failure`: cities a, b, c
with a crawler raising only on b. -/
theorem scheduler_batch_tolerates_middle_failure_witness :
    (fetch_all_events ["a", "b", "c"] ["music"]
        (fun c _ => if c = "b" then Except.error "boom"
          else if c = "a" then Except.ok [⟨"e1", some 100⟩]
          else Except.ok [⟨"e3", some 200⟩]) 50
        ⟨1, [], [], ⟨true, []⟩, []⟩).1.errors =
      ["Error fetching music events for b: boom"] ∧
    (fetch_all_events ["a", "b", "c"] ["music"]
        (fun c _ => if c = "b" then Except.error "boom"
          else if c = "a" then Except.ok [⟨"e1", some 100⟩]
          else Except.ok [⟨"e3", some 200⟩]) 50
        ⟨1, [], [], ⟨true, []⟩, []⟩).1.total_events_fetched = 2 ∧
    (fetch_all_events ["a", "b", "c"] ["music"]
        (fun c _ => if c = "b" then Except.error "boom"
          else if c = "a" then Except.ok [⟨"e1", some 100⟩]
          else Except.ok [⟨"e3", some 200⟩]) 50
        ⟨1, [], [], ⟨true, []⟩, []⟩).1.total_events_cached = 2 ∧
    alookup (_get_cache_key "a" "music")
        (fetch_all_events ["a", "b", "c"] ["music"]
          (fun c _ => if c = "b" then Except.error "boom"
            else if c = "a" then Except.ok [⟨"e1", some 100⟩]
            else Except.ok [⟨"e3", some 200⟩]) 50
          ⟨1, [], [], ⟨true, []⟩, []⟩).2.memory =
      some ⟨"a", "music", [⟨"e1", some 100⟩], some 50, 1⟩ ∧
    alookup (_get_cache_key "c" "music")
        (fetch_all_events ["a", "b", "c"] ["music"]
          (fun c _ => if c = "b" then Except.error "boom"
            else if c = "a" then Except.ok [⟨"e1", some 100⟩]
            else Except.ok [⟨"e3", some 200⟩]) 50
          ⟨1, [], [], ⟨true, []⟩, []⟩).2.memory =
      some ⟨"c", "music", [⟨"e3", some 200⟩], some 50, 1⟩ :=
  scheduler_batch_tolerates_middle_failure "a" "b" "c" "music"
    (fun c _ => if c = "b" then Except.error "boom"
      else if c = "a" then Except.ok [⟨"e1", some 100⟩]
      else Except.ok [⟨"e3", some 200⟩]) 50
    ⟨1, [], [], ⟨true, []⟩, []⟩ [⟨"e1", some 100⟩] [⟨"e3", some 200⟩] "boom"
    rfl (by decide) rfl rfl rfl (by decide) rfl (by decide)

end LocalLife
